import Mathlib

/-!
Verification development for the user-story-map generation pipeline
(`backend/services/validation_service.py`, `similarity_service.py`,
`ai_service.py`, `agent_service.py`).

Python code is shallowly embedded: pure functions become Lean functions,
the provider-fallback loop becomes a recursive function over the provider
list threading explicit state, Python exceptions become `Except` results,
Python `float` arithmetic on ratios is modelled over `ℚ` (the programs only
form ratios of small naturals, scale by 5/10/100 and compare or truncate,
where the IEEE-double and rational results agree on the inputs considered
here), and Python strings are modelled by Lean `String` with ASCII-faithful
helpers for `str.lower`, `str.strip`, `in`, slicing and `re.sub` (the
pipeline's branch conditions only inspect ASCII substrings).
-/

namespace StoryMap

/-! ### Python string primitives -/

/-- Does the second list start with the first one? -/
def leadsWith : List Char → List Char → Bool
  | [], _ => true
  | _ :: _, [] => false
  | a :: as, b :: bs => a = b && leadsWith as bs

/-- Does the list contain `pat` as a contiguous sublist?  Models Python
`pat in s` on strings. -/
def hasSubChars (pat : List Char) : List Char → Bool
  | [] => pat.isEmpty
  | c :: rest => leadsWith pat (c :: rest) || hasSubChars pat rest

/-- Python `pat in s`. -/
def strHas (s pat : String) : Bool := hasSubChars pat.data s.data

/-- Python `s.lower()` (ASCII case mapping). -/
def strLower (s : String) : String := ⟨s.data.map Char.toLower⟩

/-- Python `s.upper()` (ASCII case mapping). -/
def strUpper (s : String) : String := ⟨s.data.map Char.toUpper⟩

/-- Python `s.strip()` (whitespace as recognised by `Char.isWhitespace`). -/
def pyStrip (s : String) : String :=
  ⟨((s.data.dropWhile Char.isWhitespace).reverse.dropWhile Char.isWhitespace).reverse⟩

/-- Python `len(s)`: number of code points. -/
def pyLen (s : String) : Nat := s.data.length

/-- Python `s.startswith(pre)`. -/
def strStarts (s pre : String) : Bool := leadsWith pre.data s.data

/-- Python `s.endswith(suf)`. -/
def strEnds (s suf : String) : Bool := leadsWith suf.data.reverse s.data.reverse

/-- Python `s[n:]`. -/
def strDrop (s : String) (n : Nat) : String := ⟨s.data.drop n⟩

/-- Python `s[:-n]` for `n ≤ len(s)`. -/
def strDropEnd (s : String) (n : Nat) : String := ⟨(s.data.reverse.drop n).reverse⟩

/-- Python `int(q)` for a rational value: truncation toward zero. -/
def pyInt (q : ℚ) : Int := if 0 ≤ q then ⌊q⌋ else ⌈q⌉

/-- Python `round(x)` to an integer: round half to even. -/
def roundHalfEven (q : ℚ) : Int :=
  let f := ⌊q⌋
  let r := q - (f : ℚ)
  if r < 1/2 then f
  else if 1/2 < r then f + 1
  else if f % 2 = 0 then f else f + 1

/-- Python `round(x, 2)`. -/
def pyRound2 (q : ℚ) : ℚ := (roundHalfEven (q * 100) : ℚ) / 100

/-- Python `f-string` formatting `:.0f` for the non-negative percentages used
in recommendation texts. -/
def fmtPercent0 (q : ℚ) : String := toString (roundHalfEven q)

/-! ### Python dict helpers (insertion-ordered association lists) -/

/-- Python `d.get(k)` for an insertion-ordered dict. -/
def lookupA {α β : Type} [DecidableEq α] : List (α × β) → α → Option β
  | [], _ => none
  | (k, v) :: rest, key => if k = key then some v else lookupA rest key

/-- Python `d.get(k, dflt)`. -/
def lookupD {α β : Type} [DecidableEq α] (m : List (α × β)) (key : α) (dflt : β) : β :=
  (lookupA m key).getD dflt

/-- Python `d[k] = v`: replace in place when present, else append. -/
def setA {α β : Type} [DecidableEq α] : List (α × β) → α → β → List (α × β)
  | [], key, v => [(key, v)]
  | (k, w) :: rest, key, v =>
    if k = key then (k, v) :: rest else (k, w) :: setA rest key v

/-- Python `k in d`. -/
def memA {α β : Type} [DecidableEq α] (m : List (α × β)) (key : α) : Bool :=
  (lookupA m key).isSome

/-! ### Data model of `models/` rows as loaded with their relations
(`Project` → `Activity` → `UserTask` → `UserStory`, plus `Release`). -/

structure UserStory where
  id : Int
  title : String
  description : Option String
  priority : String
  acceptance_criteria : Option (List String)
  release_id : Option Int
deriving DecidableEq

structure UserTask where
  id : Int
  title : String
  stories : List UserStory
deriving DecidableEq

structure Activity where
  id : Int
  title : String
  tasks : List UserTask
deriving DecidableEq

structure Release where
  id : Int
  title : String
deriving DecidableEq

structure Project where
  id : Int
  name : String
  activities : List Activity
  releases : List Release
deriving DecidableEq

/-! ### `schemas/analysis.py` -/

inductive IssueSeverity where
  | error
  | warning
  | info
deriving DecidableEq

inductive IssueType where
  | empty_cell
  | missing_description
  | missing_criteria
  | empty_activity
  | empty_task
  | short_title
  | duplicate_title
  | unbalanced_releases
deriving DecidableEq

/-- A value stored in an issue's `location` dict. -/
inductive LocVal where
  | intV (n : Int)
  | strV (s : String)
  | statsV (m : List (String × Nat))
deriving DecidableEq

structure ValidationIssue where
  type : IssueType
  severity : IssueSeverity
  message : String
  location : Option (List (String × LocVal)) := none
  story_ids : Option (List Int) := none
deriving DecidableEq

/-- The `stats` dict assembled by `validate_project_map`. -/
structure VStats where
  total_activities : Nat := 0
  total_tasks : Nat := 0
  total_stories : Nat := 0
  stories_with_description : Nat := 0
  stories_with_criteria : Nat := 0
  empty_cells : Nat := 0
  stories_per_release : List (String × Nat) := []
deriving DecidableEq

structure ValidationResult where
  is_valid : Bool
  score : Int
  issues : List ValidationIssue
  recommendations : List String
  stats : VStats
deriving DecidableEq

/-! ### `validation_service.py` -/

/-- Condition under which `validate_project_map` counts a story as having a
description: `story.description and len(story.description.strip()) > 10`. -/
def storyHasDescription (s : UserStory) : Bool :=
  match s.description with
  | some d => d ≠ "" && pyLen (pyStrip d) > 10
  | none => false

/-- Condition under which `validate_project_map` counts a story as having
acceptance criteria: `story.acceptance_criteria and len(...) > 0`. -/
def storyHasCriteria (s : UserStory) : Bool :=
  match s.acceptance_criteria with
  | some l => l ≠ []
  | none => false

/-- `calculate_validation_score(issues, stats)`:  start at 100, subtract
20 / 5 / 1 per error / warning / info issue, add `int(desc_ratio*5 +
criteria_ratio*5)` capped at 100, clamp to `[0, 100]`. -/
def calculate_validation_score (issues : List ValidationIssue) (stats : VStats) : Int :=
  let score : Int := issues.foldl (fun s i =>
    match i.severity with
    | .error => s - 20
    | .warning => s - 5
    | .info => s - 1) 100
  let score : Int :=
    if stats.total_stories > 0 then
      let desc_r : ℚ := (stats.stories_with_description : ℚ) / (stats.total_stories : ℚ)
      let crit_r : ℚ := (stats.stories_with_criteria : ℚ) / (stats.total_stories : ℚ)
      let bonus : Int := pyInt (desc_r * 5 + crit_r * 5)
      min 100 (score + bonus)
    else score
  max 0 (min 100 score)

/-- Mutable context threaded through the validation walk. -/
structure VCtx where
  issues : List ValidationIssue
  stats : VStats
  all_story_titles : List (String × List Int)
deriving DecidableEq

/-- Per-story body of the innermost loop of `validate_project_map`.  The
`Except` propagates the `KeyError` Python would raise when
`stories_by_release[story.release_id]` is accessed for a release id that is
not one of the project's releases. -/
def processStory (release_titles : List (Int × String)) (task : UserTask)
    (acc : VCtx × List (Int × List Int)) (story : UserStory) :
    Except String (VCtx × List (Int × List Int)) := do
  let (ctx, sbr) := acc
  let ctx := { ctx with stats := { ctx.stats with
    total_stories := ctx.stats.total_stories + 1 } }
  -- if story.release_id: stories_by_release[rid].append(story); count per title
  let (ctx, sbr) ←
    match story.release_id with
    | some rid =>
      if rid ≠ 0 then
        match lookupA sbr rid with
        | some lst => do
          let sbr := setA sbr rid (lst ++ [story.id])
          let release_title := lookupD release_titles rid "Unknown"
          let ctx :=
            if memA ctx.stats.stories_per_release release_title then
              let spr := setA ctx.stats.stories_per_release release_title
                (lookupD ctx.stats.stories_per_release release_title 0 + 1)
              { ctx with stats := { ctx.stats with stories_per_release := spr } }
            else ctx
          pure (ctx, sbr)
        | none => throw "KeyError"
      else pure (ctx, sbr)
    | none => pure (ctx, sbr)
  -- description check
  let ctx :=
    if storyHasDescription story then
      { ctx with stats := { ctx.stats with
        stories_with_description := ctx.stats.stories_with_description + 1 } }
    else
      { ctx with issues := ctx.issues ++ [{
        type := .missing_description
        severity := .info
        message := "История '" ++ story.title ++ "' не имеет описания"
        location := some [("story_id", .intV story.id),
                          ("story_title", .strV story.title),
                          ("task_title", .strV task.title)] }] }
  -- acceptance criteria check
  let ctx :=
    if storyHasCriteria story then
      { ctx with stats := { ctx.stats with
        stories_with_criteria := ctx.stats.stories_with_criteria + 1 } }
    else
      { ctx with issues := ctx.issues ++ [{
        type := .missing_criteria
        severity := .warning
        message := "История '" ++ story.title ++ "' не имеет acceptance criteria"
        location := some [("story_id", .intV story.id),
                          ("story_title", .strV story.title),
                          ("task_title", .strV task.title)] }] }
  -- title length check
  let ctx :=
    if pyLen (pyStrip story.title) < 5 then
      { ctx with issues := ctx.issues ++ [{
        type := .short_title
        severity := .info
        message := "Слишком короткое название истории: '" ++ story.title ++ "'"
        location := some [("story_id", .intV story.id)] }] }
    else ctx
  -- collect lowered title for duplicate detection
  let title_lower := pyStrip (strLower story.title)
  let prev := lookupD ctx.all_story_titles title_lower []
  let titles := setA ctx.all_story_titles title_lower (prev ++ [story.id])
  let ctx := { ctx with all_story_titles := titles }
  pure (ctx, sbr)

/-- Per-task body of the middle loop of `validate_project_map`. -/
def processTask (release_ids : List Int) (release_titles : List (Int × String))
    (activity : Activity) (acc : VCtx) (task : UserTask) : Except String VCtx := do
  if task.stories = [] then
    pure { acc with issues := acc.issues ++ [{
      type := .empty_task
      severity := .warning
      message := "Task '" ++ task.title ++ "' в Activity '" ++ activity.title
        ++ "' не содержит историй"
      location := some [("task_id", .intV task.id),
                        ("task_title", .strV task.title),
                        ("activity_id", .intV activity.id),
                        ("activity_title", .strV activity.title)] }] }
  else
    let sbr0 : List (Int × List Int) := release_ids.map (fun rid => (rid, []))
    let (ctx, sbr) ← task.stories.foldlM (processStory release_titles task) (acc, sbr0)
    -- empty cells (Task + Release without stories); not reported as issues
    let empties := (sbr.filter (fun p => p.2 = [])).length
    pure { ctx with stats := { ctx.stats with
      empty_cells := ctx.stats.empty_cells + empties } }

/-- Per-activity body of the outer loop of `validate_project_map`. -/
def processActivity (release_ids : List Int) (release_titles : List (Int × String))
    (acc : VCtx) (activity : Activity) : Except String VCtx := do
  if activity.tasks = [] then
    pure { acc with issues := acc.issues ++ [{
      type := .empty_activity
      severity := .warning
      message := "Activity '" ++ activity.title ++ "' не содержит задач (Tasks)"
      location := some [("activity_id", .intV activity.id),
                        ("activity_title", .strV activity.title)] }] }
  else
    let acc := { acc with stats := { acc.stats with
      total_tasks := acc.stats.total_tasks + activity.tasks.length } }
    activity.tasks.foldlM (processTask release_ids release_titles activity) acc

/-- The loop part of `validate_project_map`, up to (excluding) the duplicate
title / release balance / recommendation passes. -/
def validationWalk (project : Project) : Except String VCtx :=
  let releases := project.releases
  let release_ids := releases.map (·.id)
  let release_titles := releases.map (fun r => (r.id, r.title))
  let spr0 := releases.foldl (fun m r => setA m r.title 0) []
  let stats0 : VStats := { total_activities := project.activities.length,
                           stories_per_release := spr0 }
  let issues0 : List ValidationIssue :=
    if project.activities = [] then
      [{ type := .empty_activity
         severity := .error
         message := "Проект не содержит ни одной Activity"
         location := some [("project_id", .intV project.id)] }]
    else []
  project.activities.foldlM (processActivity release_ids release_titles)
    ⟨issues0, stats0, []⟩

/-- The duplicate-title and release-balance passes of `validate_project_map`:
the final issue list. -/
def finalIssues (ctx : VCtx) : List ValidationIssue :=
  -- duplicate titles
  let issues := ctx.all_story_titles.foldl (fun acc p =>
    if p.2.length > 1 then
      acc ++ [{ type := .duplicate_title
                severity := .warning
                message := "Найдены истории с одинаковым названием: '" ++ p.1 ++ "'"
                story_ids := some p.2 : ValidationIssue }]
    else acc) ctx.issues
  -- release balance
  if ctx.stats.total_stories > 0 then
    let release_counts := ctx.stats.stories_per_release.map (·.2)
    match release_counts with
    | [] => issues
    | c :: cs =>
      let max_count := cs.foldl max c
      let min_count := cs.foldl min c
      if max_count > 0 ∧ min_count = 0 then
        issues ++ [{ type := .unbalanced_releases
                     severity := .info
                     message := "Некоторые релизы пустые. Проверьте распределение историй по релизам."
                     location := some [("stats", .statsV ctx.stats.stories_per_release)] }]
      else if max_count > min_count * 3 ∧ min_count > 0 then
        issues ++ [{ type := .unbalanced_releases
                     severity := .info
                     message := "Истории неравномерно распределены по релизам"
                     location := some [("stats", .statsV ctx.stats.stories_per_release)] }]
      else issues
  else issues

/-- The recommendation pass of `validate_project_map`. -/
def finalRecs (ctx : VCtx) : List String :=
  let recommendations : List String :=
    if ctx.stats.total_stories = 0 then
      ["Добавьте пользовательские истории в карту"]
    else
      let desc_percent : ℚ :=
        (ctx.stats.stories_with_description : ℚ) / (ctx.stats.total_stories : ℚ) * 100
      let crit_percent : ℚ :=
        (ctx.stats.stories_with_criteria : ℚ) / (ctx.stats.total_stories : ℚ) * 100
      let recs := if desc_percent < 50 then
          ["Только " ++ fmtPercent0 desc_percent ++ "% историй имеют описание. "
            ++ "Добавьте описания для лучшего понимания требований."]
        else []
      if crit_percent < 70 then
        recs ++ ["Только " ++ fmtPercent0 crit_percent ++ "% историй имеют acceptance criteria. "
          ++ "Добавьте критерии приемки для всех историй."]
      else recs
  let mvp_count := lookupD ctx.stats.stories_per_release "MVP" 0
  if mvp_count = 0 ∧ ctx.stats.total_stories > 0 then
    recommendations ++ ["MVP релиз пуст. Определите минимальный набор функций для первого релиза."]
  else if mvp_count > 15 then
    recommendations ++ ["В MVP слишком много историй (" ++ toString mvp_count ++ "). "
      ++ "Рекомендуется сократить MVP до 10-15 историй."]
  else recommendations

/-- The pure tail of `validate_project_map`: final issues, recommendations,
score and validity. -/
def finalizeValidation (ctx : VCtx) : ValidationResult :=
  { is_valid := !(finalIssues ctx).any (fun i => i.severity = .error)
    score := calculate_validation_score (finalIssues ctx) ctx.stats
    issues := finalIssues ctx
    recommendations := finalRecs ctx
    stats := ctx.stats }

/-- `validate_project_map(project, db)` (the `db` session is unused by the
source function's logic). -/
def validate_project_map (project : Project) : Except String ValidationResult :=
  match validationWalk project with
  | .error e => .error e
  | .ok ctx => .ok (finalizeValidation ctx)

/-- Number of issues of a given severity (used to state the closed form of
the score computation). -/
def severityCount (issues : List ValidationIssue) (sev : IssueSeverity) : Nat :=
  (issues.filter (fun i => i.severity = sev)).length

/-- The bonus term actually computed by `calculate_validation_score`. -/
def codeBonus (stats : VStats) : Int :=
  if stats.total_stories > 0 then
    pyInt ((stats.stories_with_description : ℚ) / (stats.total_stories : ℚ) * 5
      + (stats.stories_with_criteria : ℚ) / (stats.total_stories : ℚ) * 5)
  else 0

/-- All stories of a project in traversal order. -/
def allStories (p : Project) : List UserStory :=
  p.activities.flatMap (fun a => a.tasks.flatMap (fun t => t.stories))

/-- Number of stories having both a description and acceptance criteria (in
the sense in which `validate_project_map` counts them). -/
def storiesWithBoth (p : Project) : Nat :=
  ((allStories p).filter (fun s => storyHasDescription s && storyHasCriteria s)).length

/-- Modelled from the spec: the claimed scoring formula, whose bonus is "up
to 10 points proportional to the fraction of stories that have both a
description and acceptance criteria".  This definition follows the spec's
words (not the source) and exists to be compared against
`calculate_validation_score`. -/
def spec_claimed_score (issues : List ValidationIssue) (stats : VStats)
    (stories_with_both : Nat) : Int :=
  let base : Int := 100 - 20 * severityCount issues .error
    - 5 * severityCount issues .warning - severityCount issues .info
  let bonus : Int :=
    if stats.total_stories > 0 then
      pyInt ((stories_with_both : ℚ) / (stats.total_stories : ℚ) * 10)
    else 0
  max 0 (min 100 (base + bonus))

/-! ### `similarity_service.py` -/

/-- `RUSSIAN_STOP_WORDS` (verbatim, including its duplicated entries). -/
def RUSSIAN_STOP_WORDS : List String := [
  "и", "в", "во", "не", "что", "он", "на", "я", "с", "со", "как", "а", "то", "все",
  "она", "так", "его", "но", "да", "ты", "к", "у", "же", "вы", "за", "бы", "по",
  "только", "её", "мне", "было", "вот", "от", "меня", "еще", "нет", "о", "из",
  "ему", "теперь", "когда", "уже", "вам", "ни", "быть", "был", "него", "до",
  "вас", "нибудь", "опять", "уж", "вам", "ведь", "там", "потом", "себя", "ничего",
  "ей", "может", "они", "тут", "где", "есть", "надо", "ней", "для", "мы", "тебя",
  "их", "чем", "была", "сам", "чтоб", "без", "будто", "чего", "раз", "тоже", "себе",
  "под", "будет", "ж", "тогда", "кто", "этот", "того", "потому", "этого", "какой",
  "совсем", "ним", "здесь", "этом", "один", "почти", "мой", "тем", "чтобы", "нее",
  "сейчас", "были", "куда", "зачем", "всех", "никогда", "можно", "при", "наконец",
  "два", "об", "другой", "хоть", "после", "над", "больше", "тот", "через", "эти",
  "нас", "про", "всего", "них", "какая", "много", "разве", "три", "эту", "моя",
  "впрочем", "хорошо", "свою", "этой", "перед", "иногда", "лучше", "чуть", "том",
  "нельзя", "такой", "им", "более", "всегда", "конечно", "всю", "между",
  "как", "хочу", "чтобы", "могу", "пользователь", "система", "должен", "должна"]

/-- A character matched by the regex class `\w` (ASCII portion). -/
def isWordChar (c : Char) : Bool := c.isAlphanum || c = '_'

/-- Replace every whitespace run by a single space (`re.sub(r'\s+', ' ', ·)`).
The boolean argument records whether the previous character was whitespace. -/
def collapseWsAux : Bool → List Char → List Char
  | _, [] => []
  | prevWs, c :: rest =>
    if c.isWhitespace then
      if prevWs then collapseWsAux true rest
      else ' ' :: collapseWsAux true rest
    else c :: collapseWsAux false rest

/-- `preprocess_text`: lowercase, replace characters outside `\w`/`\s` by a
space, collapse whitespace, strip. -/
def preprocess_text (text : String) : String :=
  if text = "" then ""
  else
    let t := strLower text
    let t : List Char :=
      t.data.map (fun c => if isWordChar c || c.isWhitespace then c else ' ')
    let t := collapseWsAux false t
    pyStrip ⟨t⟩

/-- `get_story_text`: title, then description (when truthy), then the
acceptance criteria (when truthy), joined by single spaces.  The `join` in
the source uses `" ".join(parts)` where the first part is `story.title or ""`
(the title field is a non-null column, so it is the title itself). -/
def get_story_text (story : UserStory) : String :=
  let parts := [story.title]
  let parts :=
    match story.description with
    | some d => if d ≠ "" then parts ++ [d] else parts
    | none => parts
  let parts :=
    match story.acceptance_criteria with
    | some l => if l ≠ [] then parts ++ l else parts
    | none => parts
  String.intercalate " " parts

/-- Python `s.split()`: split on whitespace runs, dropping empty pieces. -/
def pySplitWs (s : String) : List String :=
  ((s.data.splitOnP Char.isWhitespace).map (fun l => (⟨l⟩ : String))).filter
    (fun w => w ≠ "")

/-- The stop-word-filtered token set of one text, as computed by
`calculate_similarity_fallback` (`set(preprocess_text(t).split()) - set(STOP)`;
sets are represented by duplicate-free lists). -/
def tokenSet (text : String) : List String :=
  ((pySplitWs (preprocess_text text)).dedup).filter
    (fun w => !(RUSSIAN_STOP_WORDS.contains w))

/-- Jaccard similarity of two token sets (zero when either is empty). -/
def jaccardSim (s1 s2 : List String) : ℚ :=
  if s1 = [] ∨ s2 = [] then 0
  else
    let intersectionCount := (s1.filter (fun w => s2.contains w)).length
    let unionCount := (s1 ++ s2).dedup.length
    if unionCount > 0 then (intersectionCount : ℚ) / (unionCount : ℚ) else 0

/-- `calculate_similarity_fallback(texts)`: the symmetric Jaccard similarity
matrix with unit diagonal.  The source fills entries for `i < j` and mirrors
them; since `jaccardSim` is symmetric this direct description builds the same
matrix. -/
def calculate_similarity_fallback (texts : List String) : List (List ℚ) :=
  let n := texts.length
  let tokenized := texts.map tokenSet
  (List.range n).map (fun i => (List.range n).map (fun j =>
    if i = j then 1
    else jaccardSim (tokenized.getD i []) (tokenized.getD j [])))

/-- Entry `(i, j)` of a similarity matrix (`similarity_matrix[i][j]`). -/
def matGet (M : List (List ℚ)) (i j : Nat) : ℚ := (M.getD i []).getD j 0

/-- One record of the `stories_data` list built by `analyze_similarity`. -/
structure StoryInfo where
  story : UserStory
  task_title : String
  activity_title : String
  text : String
deriving DecidableEq

instance : Inhabited StoryInfo :=
  ⟨⟨⟨0, "", none, "", none, none⟩, "", "", ""⟩⟩

structure SimilarStory where
  id : Int
  title : String
  description : Option String
  similarity : ℚ
  task_title : Option String
  activity_title : Option String
deriving DecidableEq

/-- `SimilarityGroup`.  The extra `memberIdxs` field records which matrix
indices the group was built from (the component produced by the union-find
pass); it carries no new information — it is the `indices` list the source
iterates over when it builds `stories` — but is needed to state properties
about the pairwise similarities of a group's members. -/
structure SimilarityGroup where
  stories : List SimilarStory
  group_type : String
  recommendation : String
  memberIdxs : List Nat
deriving DecidableEq

structure SimStats where
  total_stories : Nat
  duplicates_found : Nat
  similar_groups_found : Nat
  algorithm : String
deriving DecidableEq

/-- `SimilarityResult` (`potential_conflicts` is always `[]` in
`analyze_similarity`; AI-driven conflict detection lives elsewhere, so the
conflict payload type is not modelled). -/
structure SimilarityResult where
  similar_groups : List SimilarityGroup
  potential_conflicts : List Unit := []
  stats : SimStats
deriving DecidableEq

/-- Union-find `find` without path compression, with fuel.  The source's
`find` uses path compression, which changes the parent array but never the
returned root; parent chains in the union-by-root forest are acyclic and
shorter than `n`, so `parent.length` steps of fuel always suffice. -/
def ufFindAux (parent : List Nat) : Nat → Nat → Nat
  | 0, x => x
  | fuel + 1, x =>
    let p := parent.getD x x
    if p = x then x else ufFindAux parent fuel p

def ufFind (parent : List Nat) (x : Nat) : Nat := ufFindAux parent parent.length x

/-- Union-find `union(x, y)`: graft the root of `x` onto the root of `y`. -/
def ufUnion (parent : List Nat) (x y : Nat) : List Nat :=
  let px := ufFind parent x
  let py := ufFind parent y
  if px ≠ py then parent.set px py else parent

/-- The pair loop of `find_similar_groups`: union every pair `i < j` whose
similarity reaches the threshold.  (The `pairs_with_similarity` list the
source also accumulates is never read afterwards.) -/
def similarityUnionPairs (M : List (List ℚ)) (similarity_threshold : ℚ) (n : Nat) :
    List Nat :=
  (List.range n).foldl (fun parent i =>
    ((List.range n).drop (i + 1)).foldl (fun parent j =>
      if similarity_threshold ≤ matGet M i j then ufUnion parent i j else parent)
      parent)
    (List.range n)

/-- Group the indices `0, …, n-1` by their union-find root, in insertion
order (Python `defaultdict(list)` iteration order). -/
def componentsOf (n : Nat) (parent : List Nat) : List (Nat × List Nat) :=
  (List.range n).foldl (fun comps i =>
    let r := ufFind parent i
    setA comps r (lookupD comps r [] ++ [i])) []

/-- The max-pairwise-similarity accumulation of `find_similar_groups`
(`for i, idx1 in enumerate(indices): for idx2 in indices[i+1:]`), started
from `0.0`. -/
def maxPairSim (M : List (List ℚ)) : List Nat → ℚ → ℚ
  | [], acc => acc
  | i :: rest, acc =>
    maxPairSim M rest (rest.foldl (fun a j => max a (matGet M i j)) acc)

/-- Mean similarity of member `idx` to the other members of `indices`. -/
def avgSimTo (M : List (List ℚ)) (indices : List Nat) (idx : Nat) : ℚ :=
  let others := indices.filter (fun o => o ≠ idx)
  let total := others.foldl (fun s o => s + matGet M idx o) 0
  if others.length > 0 then total / (others.length : ℚ) else 1

/-- Stable insertion into a sorted list: `a` goes after every `b` with
`le b a`.  Used to model Python's stable `list.sort`. -/
def insSorted {α : Type} (le : α → α → Bool) (a : α) : List α → List α
  | [] => [a]
  | b :: bs => if le b a then b :: insSorted le a bs else a :: b :: bs

/-- Stable sort (insertion sort).  Python's `list.sort` is stable, and a
stable sort's output is uniquely determined by the comparison, so this models
`sort(key=...)` exactly; `le b a` means "b may stay before a". -/
def pySortBy {α : Type} (le : α → α → Bool) (l : List α) : List α :=
  l.foldl (fun acc a => insSorted le a acc) []

/-- Build one `SimilarityGroup` from a connected component `indices`. -/
def mkGroup (stories_data : List StoryInfo) (M : List (List ℚ))
    (duplicate_threshold : ℚ) (indices : List Nat) : SimilarityGroup :=
  let max_similarity := maxPairSim M indices 0
  let is_duplicate : Bool := duplicate_threshold ≤ max_similarity
  let group_type := if is_duplicate then "duplicate" else "similar"
  let similar_stories := indices.map (fun idx =>
    let sd := stories_data.getD idx default
    { id := sd.story.id
      title := sd.story.title
      description := sd.story.description
      similarity := pyRound2 (avgSimTo M indices idx)
      task_title := some sd.task_title
      activity_title := some sd.activity_title : SimilarStory })
  let similar_stories :=
    pySortBy (fun b a => a.similarity ≤ b.similarity) similar_stories
  let recommendation :=
    if is_duplicate then
      "Возможные дубликаты. Рекомендуется объединить истории или уточнить их различия."
    else
      "Похожие истории. Проверьте, не пересекается ли функциональность. Возможно, стоит разграничить scope каждой истории."
  { stories := similar_stories
    group_type := group_type
    recommendation := recommendation
    memberIdxs := indices }

/-- The final group ordering: duplicates first, then by descending size
(`key=lambda g: (0 if duplicate else 1, -len(stories))`, stable). -/
def groupLe (g1 g2 : SimilarityGroup) : Bool :=
  let r1 : Nat := if g1.group_type = "duplicate" then 0 else 1
  let r2 : Nat := if g2.group_type = "duplicate" then 0 else 1
  r1 < r2 || (r1 = r2 && g2.stories.length ≤ g1.stories.length)

/-- `find_similar_groups(stories_data, similarity_matrix, ts, td)`. -/
def find_similar_groups (stories_data : List StoryInfo) (M : List (List ℚ))
    (similarity_threshold duplicate_threshold : ℚ) : List SimilarityGroup :=
  let n := stories_data.length
  let parent := similarityUnionPairs M similarity_threshold n
  let components := componentsOf n parent
  let groups := (components.filter (fun p => decide (¬ p.2.length < 2))).map
    (fun p => mkGroup stories_data M duplicate_threshold p.2)
  pySortBy groupLe groups

/-- The pairwise-similarity backend: `calculate_similarity_tfidf` when
scikit-learn is importable (external library, abstracted as a function from
the preprocessed texts to a matrix), else `calculate_similarity_fallback`
(embedded above).  The `name` is the `algorithm` string put in the stats. -/
structure SimilarityBackend where
  matrix : List String → List (List ℚ)
  name : String

/-- The in-repository fallback backend. -/
def jaccardBackend : SimilarityBackend :=
  ⟨calculate_similarity_fallback, "jaccard"⟩

/-- `analyze_similarity(project, similarity_threshold, duplicate_threshold)`,
parameterized by the matrix backend. -/
def analyze_similarity (backend : SimilarityBackend) (project : Project)
    (similarity_threshold duplicate_threshold : ℚ) : SimilarityResult :=
  let stories_data : List StoryInfo :=
    project.activities.flatMap (fun a => a.tasks.flatMap (fun t => t.stories.map
      (fun s => { story := s, task_title := t.title, activity_title := a.title,
                  text := get_story_text s })))
  if stories_data.length < 2 then
    { similar_groups := []
      stats := { total_stories := stories_data.length, duplicates_found := 0,
                 similar_groups_found := 0, algorithm := "skipped" } }
  else
    let texts := stories_data.map (fun sd => preprocess_text sd.text)
    let M := backend.matrix texts
    let similar_groups :=
      find_similar_groups stories_data M similarity_threshold duplicate_threshold
    let duplicates_count :=
      (similar_groups.filter (fun g => g.group_type = "duplicate")).length
    { similar_groups := similar_groups
      stats := { total_stories := stories_data.length
                 duplicates_found := duplicates_count
                 similar_groups_found := similar_groups.length
                 algorithm := backend.name } }

/-! ### `ai_service.py`: rate limiting and the provider fallback orchestrator -/

/-- The settings consulted by `RateLimitTracker.should_skip_provider`. -/
structure Settings where
  GEMINI_FLASH_LIMIT : Nat
  GEMINI_PRO_LIMIT : Nat
deriving DecidableEq

/-- `RateLimitTracker`.  The source keys `usage[key]` additionally by the
UTC date and `cleanup_old_entries` drops dates older than 2 days; a single
request sequence stays within one day, so only today's counters are
modelled (`cleanup_old_entries` is then the identity). -/
structure RateLimitTracker where
  usage : List (String × Nat)
deriving DecidableEq

/-- `f"{provider}:{model}" if model else provider`. -/
def trackerKey (provider : String) (model : Option String) : String :=
  match model with
  | some m => if m ≠ "" then provider ++ ":" ++ m else provider
  | none => provider

/-- `RateLimitTracker.increment(provider, model)`. -/
def RateLimitTracker.increment (t : RateLimitTracker) (provider : String)
    (model : Option String) : RateLimitTracker :=
  let key := trackerKey provider model
  ⟨setA t.usage key (lookupD t.usage key 0 + 1)⟩

/-- `RateLimitTracker.get_count(provider, model)`: today's request count. -/
def RateLimitTracker.get_count (t : RateLimitTracker) (provider : String)
    (model : Option String) : Nat :=
  lookupD t.usage (trackerKey provider model) 0

/-- `RateLimitTracker.should_skip_provider(provider, model)`: only Gemini is
tracked; the Flash limit applies when the model name contains "flash", the
Pro limit when it contains "pro", the Flash limit otherwise. -/
def RateLimitTracker.should_skip_provider (t : RateLimitTracker) (cfg : Settings)
    (provider : String) (model : Option String) : Bool :=
  if provider ≠ "gemini" then false
  else
    let count := t.get_count provider model
    match model with
    | some m =>
      if m ≠ "" && strHas (strLower m) "flash" then count ≥ cfg.GEMINI_FLASH_LIMIT
      else if m ≠ "" && strHas (strLower m) "pro" then count ≥ cfg.GEMINI_PRO_LIMIT
      else count ≥ cfg.GEMINI_FLASH_LIMIT
    | none => count ≥ cfg.GEMINI_FLASH_LIMIT

/-- The daily limit `should_skip_provider` compares against for a Gemini
model name (used to state its specification). -/
def applicableDailyLimit (cfg : Settings) (model : Option String) : Nat :=
  match model with
  | some m =>
    if strHas (strLower m) "flash" then cfg.GEMINI_FLASH_LIMIT
    else if strHas (strLower m) "pro" then cfg.GEMINI_PRO_LIMIT
    else cfg.GEMINI_FLASH_LIMIT
  | none => cfg.GEMINI_FLASH_LIMIT

/-- The exception-class partition the fallback loop's `except` clauses
distinguish: `openai.RateLimitError`, `openai.APIConnectionError` (which
also covers `APITimeoutError`), remaining `openai.APIError` subclasses, and
every other exception (e.g. errors raised by the Gemini SDK path). -/
inductive PyErrClass where
  | rateLimitError
  | apiConnectionError
  | apiError
  | otherError
deriving DecidableEq

/-- An exception value: its class and `str(error)`. -/
structure PyError where
  cls : PyErrClass
  msg : String
deriving DecidableEq

/-- The generic message checks at the bottom of `_should_retry_error`
(commented "Gemini ошибки" in the source); `s` is the lowercased message. -/
def genericRetrySignal (s : String) : Bool :=
  if strHas s "429" || strHas s "quota" || strHas s "rate" then true
  else if strHas s "503" || strHas s "unavailable" then true
  else false

/-- `_should_retry_error(error, provider)` (the `provider` argument is
unused by the source). -/
def should_retry_error (error : PyError) : Bool :=
  match error.cls with
  | .rateLimitError => true
  | .apiConnectionError => true
  | .apiError =>
    let s := strLower error.msg
    if strHas s "429" || strHas s "rate limit" || strHas s "quota" then true
    else if strHas s "503" || strHas s "service unavailable" then true
    else genericRetrySignal s
  | .otherError => genericRetrySignal (strLower error.msg)

/-- Result of one provider invocation: the response text, or a raised
exception. -/
inductive CallOutcome where
  | success (text : String)
  | failure (e : PyError)
deriving DecidableEq

/-- The environment of `_make_request_with_fallback`:
`modelOf` is `_get_model_for_provider(provider, is_enhancement, task_type)`
(configuration lookup), `initialized` is "the provider's client object
exists" (`gemini_client` for Gemini, membership in `clients` otherwise),
and `callResult` is the provider call itself (including the
provider-specific request shaping, JSON-mode handling and completion
wrapping, none of which affect control flow). -/
structure FallbackEnv where
  cfg : Settings
  modelOf : String → String
  initialized : String → Bool
  callResult : String → CallOutcome

/-- Observable outcome of `_make_request_with_fallback`: a normalized
`(responseText, providerUsed)` pair, or a raised `HTTPException`. -/
inductive FallbackOutcome where
  | ok (text : String) (provider : String)
  | httpExc (status : Nat) (detail : String)
deriving DecidableEq

/-- State threaded through the fallback loop.  `attempted` records the
providers whose call was actually invoked (it exists in the source only as
the sequence of "Trying …" invocations, and is carried here so that "never
calls provider X" is statable). -/
structure LoopState where
  tracker : RateLimitTracker
  last_error : Option PyError
  last_provider : Option String
  attempted : List String
deriving DecidableEq

/-- The provider loop of `_make_request_with_fallback`. -/
def fallbackLoop (env : FallbackEnv) : List String → LoopState →
    FallbackOutcome × LoopState
  | [], st =>
    let detail :=
      match st.last_error, st.last_provider with
      | some e, some p =>
        "All AI providers failed. Last error from " ++ strUpper p ++ ": " ++ e.msg
      | some e, none => "All AI providers failed. Last error: " ++ e.msg
      | _, _ => "All AI providers unavailable"
    (.httpExc 503 detail, st)
  | provider :: rest, st =>
    let model := env.modelOf provider
    if st.tracker.should_skip_provider env.cfg provider (some model) then
      fallbackLoop env rest st
    else if !(env.initialized provider) then
      fallbackLoop env rest st
    else
      let st := { st with attempted := st.attempted ++ [provider] }
      match env.callResult provider with
      | .success text =>
        (.ok text provider,
         { st with tracker := st.tracker.increment provider (some model) })
      | .failure e =>
        match e.cls with
        | .rateLimitError =>
          fallbackLoop env rest
            { st with last_error := some e, last_provider := some provider }
        | .apiConnectionError =>
          fallbackLoop env rest
            { st with last_error := some e, last_provider := some provider }
        | .apiError =>
          if should_retry_error e then
            fallbackLoop env rest
              { st with last_error := some e, last_provider := some provider }
          else
            (.httpExc 502 (strUpper provider ++ " API error: " ++ e.msg), st)
        | .otherError =>
          fallbackLoop env rest
            { st with last_error := some e, last_provider := some provider }

def MSG_NO_PROVIDERS : String :=
  "No AI providers configured. Set GEMINI_API_KEY, GROQ_API_KEY, PERPLEXITY_API_KEY, or OPENAI_API_KEY."

/-- `_make_request_with_fallback(request_params, providers, …)`.  The
initial `rate_limiter.cleanup_old_entries()` only drops counters of past
days and is the identity in the single-day tracker model. -/
def make_request_with_fallback (env : FallbackEnv) (providers : List String)
    (tracker : RateLimitTracker) : FallbackOutcome × LoopState :=
  if providers = [] then
    (.httpExc 503 MSG_NO_PROVIDERS, ⟨tracker, none, none, []⟩)
  else
    fallbackLoop env providers ⟨tracker, none, none, []⟩

/-! ### `generate_ai_map` (map generation with cache and response checks) -/

/-- Parsed JSON values (`json.loads` results). -/
inductive PyJson where
  | null
  | boolV (b : Bool)
  | numV (q : ℚ)
  | strV (s : String)
  | arr (xs : List PyJson)
  | obj (kvs : List (String × PyJson))

/-- Python truthiness of a JSON value. -/
def pyTruthy : PyJson → Bool
  | .null => false
  | .boolV b => b
  | .numV q => q ≠ 0
  | .strV s => s ≠ ""
  | .arr xs => !xs.isEmpty
  | .obj kvs => !kvs.isEmpty

/-- The markdown-fence stripping in `generate_ai_map` (and
`enhance_requirements`): strip, drop a leading ```json, drop a leading
```, drop a trailing ```, strip — note the two leading checks are
sequential `if`s there, not `elif`. -/
def stripFencesGen (t : String) : String :=
  let t := pyStrip t
  let t := if strStarts t "```json" then strDrop t 7 else t
  let t := if strStarts t "```" then strDrop t 3 else t
  let t := if strEnds t "```" then strDropEnd t 3 else t
  pyStrip t

/-- `get_cache_key(requirements_text, prefix)`, with `hashlib.sha256(...)
.hexdigest()` abstracted as a deterministic function `sha256Hex`. -/
def get_cache_key (sha256Hex : String → String) (requirements_text : String)
    (pre : String) : String :=
  pre ++ ":" ++ sha256Hex requirements_text

/-- The Redis cache, modelled as a JSON-valued key-value store
(`setex`/`get` round-trip through `json.dumps`/`json.loads`, which is the
identity on the values stored here; the TTL argument is modelled as plain
presence). -/
def Cache : Type := List (String × PyJson)

/-- Environment of `generate_ai_map`: the fallback environment and provider
list, the abstract hash, and `json.loads` on cleaned response texts
(`none` models a raised `JSONDecodeError`). -/
structure GenEnv where
  fenv : FallbackEnv
  providers : List String
  sha256Hex : String → String
  jsonLoads : String → Option PyJson

/-- Outcome of `generate_ai_map`: the parsed map dict, or a raised
`HTTPException`. -/
inductive GenOutcome where
  | ok (result : PyJson)
  | httpExc (status : Nat) (detail : String)

def MSG_TOO_SHORT : String :=
  "Requirements text is too short. Please provide at least 10 characters."

def MSG_TOO_LONG : String :=
  "Requirements text is too long. Maximum 10000 characters allowed."

/-- `generate_ai_map(requirements_text, redis_client, use_cache)`.
Returns the outcome, the cache after the call (`none` when no Redis client
was supplied), the rate tracker after the call, and how many times the
orchestrator (`_make_request_with_fallback`) was invoked. -/
def generate_ai_map (env : GenEnv) (tracker : RateLimitTracker)
    (redis : Option Cache) (use_cache : Bool) (requirements_text : String) :
    GenOutcome × Option Cache × RateLimitTracker × Nat :=
  if env.providers = [] then
    (.httpExc 503 "AI API key not configured. Set GROQ_API_KEY, PERPLEXITY_API_KEY, or OPENAI_API_KEY environment variable.",
     redis, tracker, 0)
  else if pyLen (pyStrip requirements_text) < 10 then
    (.httpExc 400 MSG_TOO_SHORT, redis, tracker, 0)
  else if pyLen requirements_text > 10000 then
    (.httpExc 400 MSG_TOO_LONG, redis, tracker, 0)
  else
    let cache_key := get_cache_key env.sha256Hex requirements_text "ai_map"
    let cached : Option PyJson :=
      match use_cache, redis with
      | true, some c => lookupA c cache_key
      | _, _ => none
    match cached with
    | some v => (.ok v, redis, tracker, 0)
    | none =>
      match make_request_with_fallback env.fenv env.providers tracker with
      | (.httpExc s d, st) => (.httpExc s d, redis, st.tracker, 1)
      | (.ok raw _, st) =>
        let response_text := stripFencesGen raw
        if response_text = "" then
          (.httpExc 502 "AI service returned an empty response. Please try again.",
           redis, st.tracker, 1)
        else
          match env.jsonLoads response_text with
          | none =>
            (.httpExc 502 "Invalid JSON response from AI service.",
             redis, st.tracker, 1)
          | some result =>
            match result with
            | .obj kvs =>
              match lookupA kvs "map" with
              | none =>
                (.httpExc 502 "AI service response is missing required 'map' field.",
                 redis, st.tracker, 1)
              | some (.arr _) =>
                let redis' :=
                  match use_cache, redis with
                  | true, some c => some (setA c cache_key result)
                  | _, _ => redis
                (.ok result, redis', st.tracker, 1)
              | some _ =>
                (.httpExc 502 "AI service response 'map' field must be a list.",
                 redis, st.tracker, 1)
            | _ =>
              (.httpExc 502 "AI service returned invalid response format. Expected a JSON object.",
               redis, st.tracker, 1)

/-! ### `agent_service.py` (`SimpleAgent`) -/

/-- `SimpleAgent._parse_json_response`: strip, drop a leading ```json
OR a leading ``` (here the two checks are `if`/`elif`), drop a trailing
```, strip, then `json.loads`. -/
def parse_json_response (jsonLoads : String → Option PyJson)
    (response_text : String) : Option PyJson :=
  let text := pyStrip response_text
  let text :=
    if strStarts text "```json" then strDrop text 7
    else if strStarts text "```" then strDrop text 3
    else text
  let text := if strEnds text "```" then strDropEnd text 3 else text
  let text := pyStrip text
  jsonLoads text

/-- `d.get(k, dflt)` where a string is expected.  A non-string JSON value
found under the key would flow unchecked into the model object in Python and
raise on the first string method applied to it; that degenerate shape is not
modelled. -/
def pyGetStr (kvs : List (String × PyJson)) (k : String) (dflt : String) : String :=
  match lookupA kvs k with
  | some (.strV s) => s
  | _ => dflt

/-- `d.get(k, [])` for the acceptance-criteria list: the string items of the
JSON array (non-array values and non-string items are not modelled). -/
def asStrList : PyJson → List String
  | .arr xs => xs.map (fun x => match x with | .strV s => s | _ => "")
  | _ => []

/-- The release a story is put in by `_structure_to_project`:
`priority.upper()` contains "MVP" → the MVP release (id 1), else contains
"RELEASE" or "1" → Release 1 (id 2), else Later (id 3). -/
def releaseIdOfPriority (priority : String) : Int :=
  let p := strUpper priority
  if strHas p "MVP" then 1
  else if strHas p "RELEASE" || strHas p "1" then 2
  else 3

/-- One story of `_structure_to_project`. -/
def storyFromJson (act_idx task_idx story_idx : Nat)
    (sd : List (String × PyJson)) : UserStory :=
  { id := ((act_idx + 1) * 10000 + (task_idx + 1) * 100 + story_idx + 1 : Nat)
    title := pyGetStr sd "title" ("Story " ++ toString (story_idx + 1))
    description := some (pyGetStr sd "description" "")
    priority := pyGetStr sd "priority" "Later"
    acceptance_criteria := some (asStrList (lookupD sd "acceptanceCriteria" (.arr [])))
    release_id := some (releaseIdOfPriority (pyGetStr sd "priority" "Later")) }

/-- JSON array elements that are objects, keeping their enumerate index
(non-dict entries are skipped with `continue`, but still consume an index). -/
def enumObjs (v : PyJson) : List (Nat × List (String × PyJson)) :=
  match v with
  | .arr xs => xs.enum.filterMap (fun p =>
      match p.2 with
      | .obj kvs => some (p.1, kvs)
      | _ => none)
  | _ => []

/-- One task of `_structure_to_project`. -/
def taskFromJson (act_idx : Nat) (task_idx : Nat)
    (td : List (String × PyJson)) : UserTask :=
  { id := ((act_idx + 1) * 100 + task_idx + 1 : Nat)
    title := pyGetStr td "taskTitle" ("Task " ++ toString (task_idx + 1))
    stories := (enumObjs (lookupD td "stories" (.arr []))).map
      (fun p => storyFromJson act_idx task_idx p.1 p.2) }

/-- `SimpleAgent._structure_to_project(structure)`: convert the parsed map
dict into a temporary `Project` with the three standard releases.  (The
`user_id`/`raw_requirements` columns it also fills are not consulted by
validation and are not modelled.) -/
def structure_to_project (struct : List (String × PyJson)) : Project :=
  { id := 0
    name := pyGetStr struct "productName" "Temporary Project"
    activities := (enumObjs (lookupD struct "map" (.arr []))).map (fun p =>
      { id := (p.1 + 1 : Nat)
        title := pyGetStr p.2 "activity" ("Activity " ++ toString (p.1 + 1))
        tasks := (enumObjs (lookupD p.2 "tasks" (.arr []))).map
          (fun q => taskFromJson p.1 q.1 q.2) })
    releases := [⟨1, "MVP"⟩, ⟨2, "Release 1"⟩, ⟨3, "Later"⟩] }

/-- An issue as seen by the agent: either a `ValidationIssue` object from
`validation_service`, or a legacy plain dict (produced by `_validate`'s
exception fallback). -/
inductive AgentIssue where
  | obj (i : ValidationIssue)
  | dictI (severity : String) (message : String)
deriving DecidableEq

/-- The dict returned by `SimpleAgent._validate` (its `score` is the raw
score normalized to `[0,1]`; `stats := none` models the empty dict of the
short-circuit/fallback branches). -/
structure AgentValidation where
  is_valid : Bool
  issues : List AgentIssue
  score : ℚ
  score_raw : Int
  similarity : Option SimilarityResult
  recommendations : List String
  stats : Option VStats
deriving DecidableEq

/-- `SimpleAgent._validate(structure)`.  The `try/except` around the
similarity call has no failure branch here because the embedded
`analyze_similarity` is total. -/
def agent_validate (backend : SimilarityBackend)
    (struct : List (String × PyJson)) : AgentValidation :=
  if !(pyTruthy (lookupD struct "map" .null)) then
    { is_valid := false, issues := [], score := 0, score_raw := 0,
      similarity := none,
      recommendations := ["Отсутствует структура карты (map)"], stats := none }
  else
    let temp_project := structure_to_project struct
    match validate_project_map temp_project with
    | .error e =>
      { is_valid := false,
        issues := [.dictI "error" ("Ошибка валидации: " ++ e)],
        score := 0, score_raw := 0, similarity := none,
        recommendations := ["Ошибка при валидации структуры"], stats := none }
    | .ok vr =>
      let total_stories := (allStories temp_project).length
      let simres :=
        if total_stories ≥ 2 then
          some (analyze_similarity backend temp_project (7/10) (9/10))
        else none
      { is_valid := vr.is_valid
        issues := vr.issues.map .obj
        score := (vr.score : ℚ) / 100
        score_raw := vr.score
        similarity := simres
        recommendations := vr.recommendations
        stats := some vr.stats }

/-- The test `generate_map` applies to each issue when collecting critical
issues: `severity == "error"` for `ValidationIssue` objects,
`severity in ["critical", "error"]` for legacy dicts. -/
def isCriticalIssue : AgentIssue → Bool
  | .obj i => i.severity = .error
  | .dictI sev _ => sev = "critical" || sev = "error"

/-- `duplicates_found` as `generate_map` reads it from a validation dict
(`similarity_result.get("stats", {}).get("duplicates_found", 0)` guarded by
`if similarity_result:`). -/
def duplicatesFound (v : AgentValidation) : Nat :=
  match v.similarity with
  | some s => s.stats.duplicates_found
  | none => 0

/-- `similar_groups_found` read the same way. -/
def similarGroupsFound (v : AgentValidation) : Nat :=
  match v.similarity with
  | some s => s.stats.similar_groups_found
  | none => 0

/-- Environment of a `SimpleAgent` run. -/
structure AgentEnv where
  backend : SimilarityBackend
  fenv : FallbackEnv
  providers : List String
  jsonLoads : String → Option PyJson
  enable_validation : Bool := true
  enable_fix : Bool := true

/-- `SimpleAgent._fix(structure, issues, similarity_info)`.  The issue list
and similarity info only shape the corrective prompt, which the abstract
provider call consumes, so they do not appear as arguments.  Returns the
(possibly fixed) structure, the tracker after the call, and 1 for the one
corrective prompt issued.  Any failure — an `HTTPException` out of the
orchestrator, an unparseable response, or a parsed non-dict (whose
`fixed["provider_used"] = provider` assignment raises `TypeError`) — is
caught and the original structure returned. -/
def agent_fix (env : AgentEnv) (tracker : RateLimitTracker)
    (struct : List (String × PyJson)) :
    List (String × PyJson) × RateLimitTracker × Nat :=
  match make_request_with_fallback env.fenv env.providers tracker with
  | (.ok text p, st) =>
    match parse_json_response env.jsonLoads text with
    | some (.obj fixedKvs) => (setA fixedKvs "provider_used" (.strV p), st.tracker, 1)
    | some _ => (struct, st.tracker, 1)
    | none => (struct, st.tracker, 1)
  | (.httpExc _ _, st) => (struct, st.tracker, 1)

/-- The metrics fields of one agent run that do not measure wall-clock time
(the `*_time` entries are not modelled). -/
structure AgentMetricsOut where
  provider_used : Option String
  fix_attempted : Bool
  fix_successful : Bool
  critical_issues_before_fix : Nat
  critical_issues_after_fix : Nat
  similarity_groups_found : Nat
  duplicates_found : Nat
deriving DecidableEq

/-- Result of one agent run: the final structure, the final validation dict
(as stored into `metadata`), the metrics, and the number of corrective
prompts issued (`fixCalls = 0` means the fix step never ran). -/
structure AgentRunOut where
  result : List (String × PyJson)
  validation : Option AgentValidation
  metrics : AgentMetricsOut
  fixCalls : Nat

/-- `SimpleAgent.generate_map(requirements, use_cache)` after its
generation step: `genStructure` is the parsed dict `_generate` returned
(network and cache abstracted; a generation failure raises out of the run
before any of this executes).  Follows lines 113–209 of the source:
validate, count critical issues, read similarity stats, decide whether to
fix, optionally fix and revalidate, assemble metrics. -/
def agent_generate_map (env : AgentEnv) (tracker : RateLimitTracker)
    (genStructure : List (String × PyJson)) : AgentRunOut :=
  let provider_used :=
    match lookupA genStructure "provider_used" with
    | some (.strV p) => some p
    | _ => none
  if env.enable_validation then
    let v := agent_validate env.backend genStructure
    let critical_issues := v.issues.filter isCriticalIssue
    let sim_groups := similarGroupsFound v
    let dups := duplicatesFound v
    let should_fix := !critical_issues.isEmpty || dups > 0
    if env.enable_fix && should_fix then
      let (result, _, fc) := agent_fix env tracker genStructure
      let v2 := agent_validate env.backend result
      let critical_after := v2.issues.filter isCriticalIssue
      let sim_groups2 := if v2.similarity.isSome then similarGroupsFound v2 else sim_groups
      let dups2 := if v2.similarity.isSome then duplicatesFound v2 else dups
      { result := result
        validation := some v2
        metrics := { provider_used := provider_used
                     fix_attempted := true
                     fix_successful := critical_after.length < critical_issues.length
                     critical_issues_before_fix := critical_issues.length
                     critical_issues_after_fix := critical_after.length
                     similarity_groups_found := sim_groups2
                     duplicates_found := dups2 }
        fixCalls := fc }
    else
      { result := genStructure
        validation := some v
        metrics := { provider_used := provider_used
                     fix_attempted := false
                     fix_successful := false
                     critical_issues_before_fix := critical_issues.length
                     critical_issues_after_fix := 0
                     similarity_groups_found := sim_groups
                     duplicates_found := dups }
        fixCalls := 0 }
  else
    { result := genStructure
      validation := none
      metrics := { provider_used := provider_used
                   fix_attempted := false
                   fix_successful := false
                   critical_issues_before_fix := 0
                   critical_issues_after_fix := 0
                   similarity_groups_found := 0
                   duplicates_found := 0 }
      fixCalls := 0 }

/-! ### Concrete inputs used by witnesses and counterexamples -/

instance : Inhabited ValidationResult := ⟨⟨false, 0, [], [], {}⟩⟩

instance : Inhabited SimilarityGroup := ⟨⟨[], "", "", []⟩⟩

/-- Default settings values (`GEMINI_FLASH_LIMIT = 230`,
`GEMINI_PRO_LIMIT = 45`, from `config.py`). -/
def cfgW : Settings := ⟨230, 45⟩

def trackerEmpty : RateLimitTracker := ⟨[]⟩

def stEmpty : LoopState := ⟨trackerEmpty, none, none, []⟩

/-- A project with no activities at all. -/
def projC1 : Project := ⟨1, "P", [], []⟩

def resC1 : ValidationResult := (validate_project_map projC1).toOption.getD default

/-- A project whose two stories split description and criteria between them:
one has only a (long enough) description, the other only acceptance
criteria.  No releases are configured, so no release bookkeeping fires. -/
def projC2 : Project :=
  ⟨7, "P",
   [⟨1, "Act",
     [⟨1, "Task one",
       [⟨1, "Story one", some "a description long enough", "MVP", none, none⟩,
        ⟨2, "Story two", none, "MVP", some ["c1"], none⟩]⟩]⟩],
   []⟩

def resC2 : ValidationResult := (validate_project_map projC2).toOption.getD default

/-- A provider failure of a class other than `APIError` whose message
carries none of the retryable signals (cf. the Gemini content-block path,
which raises a plain `Exception`). -/
def errBlocked : PyError := ⟨.otherError, "Content was blocked: safety"⟩

/-- A non-retryable `APIError`: a 400-shaped message with no retry signal. -/
def errApi : PyError := ⟨.apiError, "400 bad request"⟩

/-- A retryable failure (a rate limit). -/
def errRate : PyError := ⟨.rateLimitError, "429 too many requests"⟩

/-- Fallback environment for the C3 counterexample: Gemini raises the
non-retryable-shaped generic error, Groq succeeds. -/
def envC3 : FallbackEnv :=
  { cfg := cfgW
    modelOf := fun p => if p = "gemini" then "gemini-2.0-flash-exp" else "llama-3.3-70b-versatile"
    initialized := fun _ => true
    callResult := fun p => if p = "gemini" then .failure errBlocked else .success "ok" }

/-- Fallback environment where every provider raises the non-retryable
`APIError`. -/
def envC3W : FallbackEnv :=
  { cfg := cfgW
    modelOf := fun _ => "m"
    initialized := fun _ => true
    callResult := fun _ => .failure errApi }

/-- Fallback environment for C4: provider "a1" fails with a retryable
error, everyone else succeeds. -/
def envC4 : FallbackEnv :=
  { cfg := cfgW
    modelOf := fun _ => "m"
    initialized := fun _ => true
    callResult := fun p => if p = "a1" then .failure errRate else .success "B text" }

/-- Two-story input and an all-ones similarity matrix for the C5 witness. -/
def dataC5 : List StoryInfo :=
  [{ story := ⟨1, "s one", none, "MVP", none, none⟩, task_title := "t",
     activity_title := "a", text := "x" },
   { story := ⟨2, "s two", none, "MVP", none, none⟩, task_title := "t",
     activity_title := "a", text := "x" }]

def MC5 : List (List ℚ) := [[1, 1], [1, 1]]

def grpC5 : SimilarityGroup :=
  (find_similar_groups dataC5 MC5 (7/10) (9/10)).headD default

/-- A tracker whose Gemini flash counter sits exactly at the flash limit. -/
def tracker10 : RateLimitTracker := ⟨[("gemini:flash-model", 230)]⟩

def st10 : LoopState := ⟨tracker10, none, none, []⟩

def env10 : FallbackEnv :=
  { cfg := cfgW
    modelOf := fun _ => "flash-model"
    initialized := fun _ => true
    callResult := fun _ => .success "ok" }

/-- Generation environment for C8/C9: one OpenAI-style provider that
answers "ok", which parses to a dict with an empty "map" list. -/
def envC8 : GenEnv :=
  { fenv := { cfg := cfgW
              modelOf := fun _ => "m"
              initialized := fun _ => true
              callResult := fun _ => .success "ok" }
    providers := ["openai"]
    sha256Hex := fun _ => "h"
    jsonLoads := fun s => if s = "ok" then some (.obj [("map", .arr [])]) else none }

def textC8 : String := "build me an online bookstore"

/-- The loop state `make_request_with_fallback` produces in the C8 witness
environment. -/
def stC8 : LoopState := ⟨⟨[("openai:m", 1)]⟩, none, none, ["openai"]⟩

/-- Eleven characters, ten of which are leading spaces: raw length 11 lies
inside `[10, 10000]` but the stripped length is 1. -/
def textC9 : String := "          a"

/-- Agent environment: jaccard similarity backend, one provider whose fix
response does not parse. -/
def envAgent : AgentEnv :=
  { backend := jaccardBackend
    fenv := { cfg := cfgW
              modelOf := fun _ => "m"
              initialized := fun _ => true
              callResult := fun _ => .success "not json" }
    providers := ["openai"]
    jsonLoads := fun _ => none }

/-- A generated structure whose one activity has no tasks: validation emits
only a warning, similarity never runs. -/
def mapNoTasks : List (String × PyJson) :=
  [("map", .arr [.obj [("activity", .strV "Main activity")]])]

/-- A story dict used twice to force a duplicate pair. -/
def storyDupJson : PyJson :=
  .obj [("title", .strV "alpha beta gamma"),
        ("priority", .strV "MVP"),
        ("acceptanceCriteria", .arr [.strV "crit one two"])]

/-- A generated structure with two identical stories: no error-severity
issues, one duplicate group. -/
def mapDup : List (String × PyJson) :=
  [("map", .arr [.obj [("activity", .strV "Main activity"),
                       ("tasks", .arr [.obj [("taskTitle", .strV "Task alpha"),
                                             ("stories", .arr [storyDupJson, storyDupJson])]])]])]

/-- Agent environment with no providers configured: the fix call raises
immediately. -/
def envC7 : AgentEnv :=
  { backend := jaccardBackend
    fenv := { cfg := cfgW
              modelOf := fun _ => "m"
              initialized := fun _ => true
              callResult := fun _ => .success "ok" }
    providers := []
    jsonLoads := fun _ => none }

def structC7 : List (String × PyJson) := [("productName", .strV "X")]

/-! ### Shared helper lemmas -/

theorem lookupA_setA_self {α β : Type} [DecidableEq α] (m : List (α × β)) (k : α) (v : β) :
    lookupA (setA m k v) k = some v := by
  induction m with
  | nil => simp [setA, lookupA]
  | cons p rest ih =>
    obtain ⟨a, b⟩ := p
    by_cases h : a = k
    · simp [setA, lookupA, h]
    · simp [setA, lookupA, h, ih]

theorem get_count_increment (t : RateLimitTracker) (p : String) (m : Option String) :
    (t.increment p m).get_count p m = t.get_count p m + 1 := by
  simp [RateLimitTracker.increment, RateLimitTracker.get_count, lookupD,
    lookupA_setA_self]

theorem insSorted_perm {α : Type} (le : α → α → Bool) (a : α) (l : List α) :
    List.Perm (insSorted le a l) (a :: l) := by
  induction l with
  | nil => exact List.Perm.refl _
  | cons b bs ih =>
    simp only [insSorted]
    by_cases h : le b a = true
    · rw [if_pos h]
      exact (ih.cons b).trans (List.Perm.swap a b bs)
    · rw [if_neg h]

theorem foldl_insSorted_perm {α : Type} (le : α → α → Bool) (l : List α) :
    ∀ acc : List α, List.Perm (l.foldl (fun acc a => insSorted le a acc) acc) (acc ++ l) := by
  induction l with
  | nil => intro acc; simp
  | cons a l ih =>
    intro acc
    simp only [List.foldl_cons]
    exact ((ih _).trans ((insSorted_perm le a acc).append_right l)).trans
      List.perm_middle.symm

theorem pySortBy_perm {α : Type} (le : α → α → Bool) (l : List α) :
    List.Perm (pySortBy le l) l := by
  simpa using foldl_insSorted_perm le l []

/-- Closed form of the penalty fold in `calculate_validation_score`. -/
theorem scoreFold_eq (issues : List ValidationIssue) : ∀ s : Int,
    issues.foldl (fun s i =>
      match i.severity with
      | .error => s - 20
      | .warning => s - 5
      | .info => s - 1) s
    = s - 20 * (severityCount issues .error : Int)
        - 5 * (severityCount issues .warning : Int)
        - (severityCount issues .info : Int) := by
  induction issues with
  | nil => intro s; simp [severityCount]
  | cons i rest ih =>
    intro s
    cases hsev : i.severity <;>
      simp only [List.foldl_cons, hsev, ih, severityCount, List.filter_cons,
        hsev, decide_eq_true_eq] <;>
      simp [severityCount, List.length_cons] <;> ring

/-- The score definition in closed form. -/
theorem calculate_validation_score_eq (issues : List ValidationIssue) (stats : VStats) :
    calculate_validation_score issues stats =
      max 0 (min 100 (100 - 20 * (severityCount issues .error : Int)
        - 5 * (severityCount issues .warning : Int)
        - (severityCount issues .info : Int) + codeBonus stats)) := by
  simp only [calculate_validation_score, codeBonus, scoreFold_eq]
  split_ifs with h
  · rw [← min_assoc, min_self]
  · simp

theorem calculate_validation_score_nonneg (issues : List ValidationIssue) (stats : VStats) :
    0 ≤ calculate_validation_score issues stats :=
  le_max_left _ _

theorem calculate_validation_score_le_100 (issues : List ValidationIssue) (stats : VStats) :
    calculate_validation_score issues stats ≤ 100 :=
  max_le (by norm_num) (min_le_left _ _)

theorem not_any_error_iff (I : List ValidationIssue) :
    (!(I.any fun i => i.severity = .error)) = true ↔ ∀ i ∈ I, i.severity ≠ .error := by
  simp [List.any_eq_true]

/-! ### Claim theorems -/

/-- C1: for every project map on which `validate_project_map` returns a
result, the score lies in `[0, 100]` and `is_valid` holds iff no emitted
issue has severity `error`. -/
theorem c1_validation_result_invariants (p : Project) (r : ValidationResult)
    (h : validate_project_map p = .ok r) :
    (0 ≤ r.score ∧ r.score ≤ 100) ∧
    (r.is_valid = true ↔ ∀ i ∈ r.issues, i.severity ≠ .error) := by
  unfold validate_project_map at h
  cases hw : validationWalk p with
  | error e => rw [hw] at h; exact absurd h (by simp)
  | ok ctx =>
    rw [hw] at h
    have hr : r = finalizeValidation ctx := by
      have := h
      simp only [Except.ok.injEq] at this
      exact this.symm
    subst hr
    refine ⟨⟨calculate_validation_score_nonneg _ _,
             calculate_validation_score_le_100 _ _⟩, ?_⟩
    exact not_any_error_iff (finalIssues ctx)

/-- C1 witness: a concrete project (with no activities) on which the
invariants are checked. -/
theorem c1_witness :
    validate_project_map projC1 = .ok resC1 ∧
    ((0 ≤ resC1.score ∧ resC1.score ≤ 100) ∧
     (resC1.is_valid = true ↔ ∀ i ∈ resC1.issues, i.severity ≠ .error)) :=
  ⟨by rfl, c1_validation_result_invariants projC1 resC1 (by rfl)⟩

/-- C2 counterexample: on `projC2`, the implemented score is 99 — the bonus
is `int(5·desc_ratio + 5·criteria_ratio) = int(2.5 + 2.5) = 5` — while the
claimed formula (bonus proportional to the fraction of stories that have
BOTH a description and criteria, which is 0 here) yields 94. -/
theorem c2_counterexample :
    validate_project_map projC2 = .ok resC2 ∧
    resC2.score = 99 ∧
    spec_claimed_score resC2.issues resC2.stats (storiesWithBoth projC2) = 94 ∧
    resC2.score ≠ spec_claimed_score resC2.issues resC2.stats (storiesWithBoth projC2) :=
  ⟨by with_unfolding_all rfl, by with_unfolding_all decide,
   by with_unfolding_all decide, by with_unfolding_all decide⟩

/-- C2 (amended): the score equals 100 minus 20 per error, 5 per warning
and 1 per info issue, plus — when there is at least one story — a bonus of
`int(5·desc_ratio + 5·criteria_ratio)` (up to 5 points for the fraction of
stories with a description plus up to 5 points for the fraction with
acceptance criteria, not a single both-fraction), clamped to `[0, 100]`. -/
theorem c2_amended_score_formula (issues : List ValidationIssue) (stats : VStats) :
    calculate_validation_score issues stats =
      max 0 (min 100 (100 - 20 * (severityCount issues .error : Int)
        - 5 * (severityCount issues .warning : Int)
        - (severityCount issues .info : Int) + codeBonus stats)) :=
  calculate_validation_score_eq issues stats

/-- C3 counterexample: Gemini fails with a generic (non-`APIError`)
exception whose message has no retryable signal — non-retryable by the
claim's own classification (`should_retry_error` returns `false`) — yet the
orchestrator does not stop: it attempts Groq and returns its response. -/
theorem c3_counterexample :
    should_retry_error errBlocked = false ∧
    make_request_with_fallback envC3 ["gemini", "groq"] trackerEmpty =
      (.ok "ok" "groq",
       ⟨trackerEmpty.increment "groq" (some "llama-3.3-70b-versatile"),
        some errBlocked, some "gemini", ["gemini", "groq"]⟩) := by
  constructor
  · rfl
  · rfl

/-- C3 (amended): only a non-retryable error of the `APIError` class stops
the orchestrator immediately (as a 502 carrying that provider's error, with
no remaining provider attempted); failures of other exception classes cause
fallback to the next provider even when their shape is non-retryable. -/
theorem c3_amended_nonretryable_apierror_stops (env : FallbackEnv) (p : String)
    (rest : List String) (st : LoopState) (e : PyError)
    (hskip : st.tracker.should_skip_provider env.cfg p (some (env.modelOf p)) = false)
    (hinit : env.initialized p = true)
    (hcall : env.callResult p = .failure e)
    (hcls : e.cls = .apiError)
    (hretry : should_retry_error e = false) :
    fallbackLoop env (p :: rest) st =
      (.httpExc 502 (strUpper p ++ " API error: " ++ e.msg),
       { st with attempted := st.attempted ++ [p] }) := by
  obtain ⟨cls, msg⟩ := e
  simp only [PyError.cls] at hcls
  subst hcls
  simp [fallbackLoop, hskip, hinit, hcall, hretry]

/-- C3 witness: a concrete non-retryable `APIError` on the first provider
stops the loop with a 502 and the second provider is never reached. -/
theorem c3_witness :
    fallbackLoop envC3W ["openai", "groq"] stEmpty =
      (.httpExc 502 (strUpper "openai" ++ " API error: " ++ errApi.msg),
       { stEmpty with attempted := stEmpty.attempted ++ ["openai"] }) :=
  c3_amended_nonretryable_apierror_stops envC3W "openai" ["groq"] stEmpty errApi
    rfl rfl rfl rfl rfl

/-- C4: with providers `[a, b, c]`, when `a` is reachable and fails with a
retryable error and `b` is reachable and succeeds, the orchestrator returns
`b`'s response paired with `b`, increments the rate tracker for `b` (and
only then), and never invokes `c`. -/
theorem c4_fallback_success_stops (env : FallbackEnv) (a b c : String)
    (tracker : RateLimitTracker) (e : PyError) (txt : String)
    (haskip : tracker.should_skip_provider env.cfg a (some (env.modelOf a)) = false)
    (hainit : env.initialized a = true)
    (hacall : env.callResult a = .failure e)
    (haretry : should_retry_error e = true)
    (hbskip : tracker.should_skip_provider env.cfg b (some (env.modelOf b)) = false)
    (hbinit : env.initialized b = true)
    (hbcall : env.callResult b = .success txt)
    (hca : c ≠ a) (hcb : c ≠ b) :
    make_request_with_fallback env [a, b, c] tracker =
      (.ok txt b,
       ⟨tracker.increment b (some (env.modelOf b)), some e, some a, [a, b]⟩) ∧
    (tracker.increment b (some (env.modelOf b))).get_count b (some (env.modelOf b))
      = tracker.get_count b (some (env.modelOf b)) + 1 ∧
    c ∉ ([a, b] : List String) := by
  refine ⟨?_, get_count_increment _ _ _, by simp [hca, hcb]⟩
  obtain ⟨cls, msg⟩ := e
  cases cls <;>
    simp [make_request_with_fallback, fallbackLoop, haskip, hainit, hacall,
      hbskip, hbinit, hbcall, haretry]

/-- C4 witness: the concrete environment where "a1" rate-limits and "b2"
answers. -/
theorem c4_witness :
    make_request_with_fallback envC4 ["a1", "b2", "c3"] trackerEmpty =
      (.ok "B text" "b2",
       ⟨trackerEmpty.increment "b2" (some (envC4.modelOf "b2")), some errRate,
        some "a1", ["a1", "b2"]⟩) ∧
    (trackerEmpty.increment "b2" (some (envC4.modelOf "b2"))).get_count "b2"
        (some (envC4.modelOf "b2"))
      = trackerEmpty.get_count "b2" (some (envC4.modelOf "b2")) + 1 ∧
    "c3" ∉ (["a1", "b2"] : List String) :=
  c4_fallback_success_stops envC4 "a1" "b2" "c3" trackerEmpty errRate "B text"
    rfl rfl rfl rfl rfl rfl rfl (by decide) (by decide)

/-- C10: `should_skip_provider` returns true iff the provider is "gemini"
and today's count has reached the applicable daily limit (flash limit if
the model name contains "flash", pro limit if it contains "pro", flash
limit otherwise) — in particular it is always false for non-Gemini
providers; and when it flags the first provider the loop proceeds to the next
provider with state unchanged (no call attempted). -/
theorem c10_should_skip_spec :
    (∀ (t : RateLimitTracker) (cfg : Settings) (p : String) (m : Option String),
      t.should_skip_provider cfg p m = true ↔
        (p = "gemini" ∧ applicableDailyLimit cfg m ≤ t.get_count p m)) ∧
    (∀ (env : FallbackEnv) (p : String) (rest : List String) (st : LoopState),
      st.tracker.should_skip_provider env.cfg p (some (env.modelOf p)) = true →
        fallbackLoop env (p :: rest) st = fallbackLoop env rest st) := by
  constructor
  · intro t cfg p m
    by_cases hp : p = "gemini"
    · subst hp
      cases m with
      | none =>
        simp [RateLimitTracker.should_skip_provider, applicableDailyLimit,
          ge_iff_le]
      | some s =>
        by_cases hs : s = ""
        · subst hs
          have h1 : strHas (strLower "") "flash" = false := rfl
          have h2 : strHas (strLower "") "pro" = false := rfl
          simp [RateLimitTracker.should_skip_provider, applicableDailyLimit,
            h1, h2, ge_iff_le]
        · by_cases hf : strHas (strLower s) "flash" = true
          · simp [RateLimitTracker.should_skip_provider, applicableDailyLimit,
              hs, hf, ge_iff_le]
          · by_cases hpr : strHas (strLower s) "pro" = true
            · simp [RateLimitTracker.should_skip_provider, applicableDailyLimit,
                hs, hf, hpr, ge_iff_le]
            · simp [RateLimitTracker.should_skip_provider, applicableDailyLimit,
                hs, hf, hpr, ge_iff_le]
    · simp [RateLimitTracker.should_skip_provider, hp]
  · intro env p rest st h
    simp [fallbackLoop, h]

/-- C10 witness: a Gemini flash counter at its limit is flagged, and the
loop drops that provider without attempting a call. -/
theorem c10_witness :
    (tracker10.should_skip_provider cfgW "gemini" (some "flash-model") = true ↔
      ("gemini" = "gemini" ∧
        applicableDailyLimit cfgW (some "flash-model") ≤
          tracker10.get_count "gemini" (some "flash-model"))) ∧
    fallbackLoop env10 ("gemini" :: ["groq"]) st10 = fallbackLoop env10 ["groq"] st10 :=
  ⟨c10_should_skip_spec.1 tracker10 cfgW "gemini" (some "flash-model"),
   c10_should_skip_spec.2 env10 "gemini" ["groq"] st10 (by rfl)⟩

/-- C5: every group emitted by `find_similar_groups` has at least 2
stories, and its `group_type` is "duplicate" iff the maximum pairwise
similarity among its members (the source's 0.0-seeded maximum over the
member pairs, recorded by `memberIdxs`; similarity values are nonnegative
for both matrix backends) reaches the duplicate threshold. -/
theorem c5_similarity_groups (stories_data : List StoryInfo) (M : List (List ℚ))
    (ts td : ℚ) (g : SimilarityGroup)
    (hg : g ∈ find_similar_groups stories_data M ts td) :
    2 ≤ g.stories.length ∧
    (g.group_type = "duplicate" ↔ td ≤ maxPairSim M g.memberIdxs 0) := by
  simp only [find_similar_groups] at hg
  have hg' := (pySortBy_perm groupLe _).mem_iff.mp hg
  rcases List.mem_map.mp hg' with ⟨pr, hpr, heq⟩
  have h2 : 2 ≤ pr.2.length := by
    have := (List.mem_filter.mp hpr).2
    simp only [decide_eq_true_eq, Nat.not_lt] at this
    exact this
  subst heq
  constructor
  · have hlen : (mkGroup stories_data M td pr.2).stories.length = pr.2.length := by
      simp [mkGroup, (pySortBy_perm _ _).length_eq]
    omega
  · by_cases hd : td ≤ maxPairSim M pr.2 0
    · simp [mkGroup, hd]
    · simp [mkGroup, hd]

set_option maxRecDepth 100000 in
/-- C5 witness: two stories with similarity 1 form a single group, which is
a duplicate group of size 2. -/
theorem c5_witness :
    grpC5 ∈ find_similar_groups dataC5 MC5 (7/10) (9/10) ∧
    (2 ≤ grpC5.stories.length ∧
      (grpC5.group_type = "duplicate" ↔ (9/10 : ℚ) ≤ maxPairSim MC5 grpC5.memberIdxs 0)) :=
  ⟨by with_unfolding_all decide,
   c5_similarity_groups dataC5 MC5 (7/10) (9/10) grpC5 (by with_unfolding_all decide)⟩

/-- C6: with validation and fix enabled, a run whose validation yields no
critical (error-severity) issues and no duplicate groups records
`fix_attempted = false` and issues no fix prompt; a run whose validation
finds at least one duplicate group records `fix_attempted = true` (no
condition on error issues). -/
theorem c6_agent_fix_trigger (env : AgentEnv) (tracker : RateLimitTracker)
    (s : List (String × PyJson))
    (hv : env.enable_validation = true) (hf : env.enable_fix = true) :
    (((agent_validate env.backend s).issues.filter isCriticalIssue) = [] →
      duplicatesFound (agent_validate env.backend s) = 0 →
      (agent_generate_map env tracker s).metrics.fix_attempted = false ∧
      (agent_generate_map env tracker s).fixCalls = 0) ∧
    (1 ≤ duplicatesFound (agent_validate env.backend s) →
      (agent_generate_map env tracker s).metrics.fix_attempted = true) := by
  constructor
  · intro h1 h2
    simp [agent_generate_map, hv, hf, h1, h2]
  · intro h
    have hd : 0 < duplicatesFound (agent_validate env.backend s) := h
    simp [agent_generate_map, hv, hf, hd]

set_option maxRecDepth 1000000 in
/-- C6 witness: a map whose activity has no tasks (warning only, no
similarity run) triggers no fix; a map with two identical stories (zero
error issues, one duplicate group) triggers the fix. -/
theorem c6_witness :
    ((agent_generate_map envAgent trackerEmpty mapNoTasks).metrics.fix_attempted = false ∧
     (agent_generate_map envAgent trackerEmpty mapNoTasks).fixCalls = 0) ∧
    (agent_generate_map envAgent trackerEmpty mapDup).metrics.fix_attempted = true :=
  ⟨(c6_agent_fix_trigger envAgent trackerEmpty mapNoTasks rfl rfl).1
      (by with_unfolding_all decide) (by with_unfolding_all decide),
   (c6_agent_fix_trigger envAgent trackerEmpty mapDup rfl rfl).2
      (by with_unfolding_all decide)⟩

/-- C7: whenever the fix step fails — the orchestrator raises, the fix
response does not parse as JSON, or it parses to a non-dict — `_fix`
returns the original, unfixed structure instead of raising. -/
theorem c7_fix_failure_returns_original (env : AgentEnv) (tracker : RateLimitTracker)
    (struct : List (String × PyJson)) :
    (∀ (s : Nat) (d : String) (st : LoopState),
      make_request_with_fallback env.fenv env.providers tracker = (.httpExc s d, st) →
      (agent_fix env tracker struct).1 = struct) ∧
    (∀ (text p : String) (st : LoopState),
      make_request_with_fallback env.fenv env.providers tracker = (.ok text p, st) →
      parse_json_response env.jsonLoads text = none →
      (agent_fix env tracker struct).1 = struct) ∧
    (∀ (text p : String) (st : LoopState) (j : PyJson),
      make_request_with_fallback env.fenv env.providers tracker = (.ok text p, st) →
      parse_json_response env.jsonLoads text = some j →
      (∀ kvs, j ≠ PyJson.obj kvs) →
      (agent_fix env tracker struct).1 = struct) := by
  refine ⟨?_, ?_, ?_⟩
  · intro s d st h
    simp [agent_fix, h]
  · intro text p st h hp
    simp [agent_fix, h, hp]
  · intro text p st j h hp hobj
    cases j <;> first
      | exact absurd rfl (hobj _)
      | simp [agent_fix, h, hp]

/-- C7 witness: with no providers configured the fix call raises
immediately and the original structure is returned. -/
theorem c7_witness :
    (agent_fix envC7 trackerEmpty structC7).1 = structC7 :=
  (c7_fix_failure_returns_original envC7 trackerEmpty structC7).1 503
    MSG_NO_PROVIDERS ⟨trackerEmpty, none, none, []⟩ rfl

/-- C8: with a cache that misses, a well-formed provider response causes
exactly one orchestrator call, the parsed map is written back under the
hash-derived key, and a second call with the same text hits the cache:
it returns the cached map unchanged, leaves the cache unchanged, and makes
no orchestrator (provider) call. -/
theorem c8_cache_idempotence (env : GenEnv) (tr tr2 : RateLimitTracker) (c0 : Cache)
    (text raw p : String) (st : LoopState) (kvs : List (String × PyJson))
    (xs : List PyJson)
    (hprov : env.providers ≠ [])
    (hshort : ¬ pyLen (pyStrip text) < 10)
    (hlong : ¬ pyLen text > 10000)
    (hmiss : lookupA c0 (get_cache_key env.sha256Hex text "ai_map") = none)
    (hcall : make_request_with_fallback env.fenv env.providers tr = (.ok raw p, st))
    (hclean : stripFencesGen raw ≠ "")
    (hjson : env.jsonLoads (stripFencesGen raw) = some (.obj kvs))
    (hmap : lookupA kvs "map" = some (.arr xs)) :
    generate_ai_map env tr (some c0) true text =
      (.ok (.obj kvs),
       some (setA c0 (get_cache_key env.sha256Hex text "ai_map") (.obj kvs)),
       st.tracker, 1) ∧
    generate_ai_map env tr2
        (some (setA c0 (get_cache_key env.sha256Hex text "ai_map") (.obj kvs)))
        true text =
      (.ok (.obj kvs),
       some (setA c0 (get_cache_key env.sha256Hex text "ai_map") (.obj kvs)),
       tr2, 0) := by
  constructor
  · simp [generate_ai_map, hprov, hshort, hlong, hmiss, hcall, hclean, hjson, hmap]
  · simp [generate_ai_map, hprov, hshort, hlong, lookupA_setA_self]

/-- C8 witness: a concrete run of both calls. -/
theorem c8_witness :
    generate_ai_map envC8 trackerEmpty (some []) true textC8 =
      (.ok (.obj [("map", .arr [])]),
       some (setA [] (get_cache_key envC8.sha256Hex textC8 "ai_map")
         (.obj [("map", .arr [])])),
       stC8.tracker, 1) ∧
    generate_ai_map envC8 stC8.tracker
        (some (setA [] (get_cache_key envC8.sha256Hex textC8 "ai_map")
          (.obj [("map", .arr [])])))
        true textC8 =
      (.ok (.obj [("map", .arr [])]),
       some (setA [] (get_cache_key envC8.sha256Hex textC8 "ai_map")
         (.obj [("map", .arr [])])),
       stC8.tracker, 0) :=
  c8_cache_idempotence envC8 trackerEmpty stC8.tracker [] textC8 "ok" "openai" stC8
    [("map", .arr [])] [] (by decide) (by decide) (by decide) rfl rfl (by decide)
    rfl rfl

/-- C9 counterexample: `"          a"` has raw length 11 — inside the
claimed `[10, 10000]` acceptance range — yet `generate_ai_map` rejects it
as TooShort, because the short check runs on the stripped text. -/
theorem c9_counterexample :
    pyLen textC9 = 11 ∧ 10 ≤ pyLen textC9 ∧ pyLen textC9 ≤ 10000 ∧
    (generate_ai_map envC8 trackerEmpty (some []) true textC9).1 =
      .httpExc 400 MSG_TOO_SHORT :=
  ⟨by decide, by decide, by decide, by rfl⟩

/-- The fallback loop only raises HTTP statuses 502 and 503. -/
theorem fallbackLoop_httpExc_status (env : FallbackEnv) :
    ∀ (providers : List String) (st : LoopState) (s : Nat) (d : String)
      (st' : LoopState),
      fallbackLoop env providers st = (.httpExc s d, st') → s = 502 ∨ s = 503 := by
  intro providers
  induction providers with
  | nil =>
    intro st s d st' h
    simp only [fallbackLoop, Prod.mk.injEq, FallbackOutcome.httpExc.injEq] at h
    exact Or.inr h.1.1.symm
  | cons p rest ih =>
    intro st s d st' h
    simp only [fallbackLoop] at h
    split at h
    · exact ih _ _ _ _ h
    · split at h
      · exact ih _ _ _ _ h
      · split at h
        · simp at h
        · split at h
          · exact ih _ _ _ _ h
          · exact ih _ _ _ _ h
          · split at h
            · exact ih _ _ _ _ h
            · simp only [Prod.mk.injEq, FallbackOutcome.httpExc.injEq] at h
              exact Or.inl h.1.1.symm
          · exact ih _ _ _ _ h

/-- `_make_request_with_fallback` only raises HTTP statuses 502 and 503. -/
theorem make_request_httpExc_status (env : FallbackEnv) (providers : List String)
    (tracker : RateLimitTracker) (s : Nat) (d : String) (st : LoopState)
    (h : make_request_with_fallback env providers tracker = (.httpExc s d, st)) :
    s = 502 ∨ s = 503 := by
  unfold make_request_with_fallback at h
  split at h
  · simp only [Prod.mk.injEq, FallbackOutcome.httpExc.injEq] at h
    exact Or.inr h.1.1.symm
  · exact fallbackLoop_httpExc_status env providers _ s d st h

/-- C9 (amended): with at least one provider configured, the generator
rejects with TooShort exactly when the stripped text is shorter than 10
characters (this check runs first), rejects with TooLong exactly when the
stripped text is long enough but the raw text exceeds 10000 characters, and
both rejections happen before any orchestrator call; texts passing both
checks are never rejected by this gate. -/
theorem c9_amended_length_gate (env : GenEnv) (tr : RateLimitTracker)
    (redis : Option Cache) (uc : Bool) (text : String)
    (hprov : env.providers ≠ []) :
    (pyLen (pyStrip text) < 10 →
      generate_ai_map env tr redis uc text = (.httpExc 400 MSG_TOO_SHORT, redis, tr, 0)) ∧
    (¬ pyLen (pyStrip text) < 10 → pyLen text > 10000 →
      generate_ai_map env tr redis uc text = (.httpExc 400 MSG_TOO_LONG, redis, tr, 0)) ∧
    (¬ pyLen (pyStrip text) < 10 → ¬ pyLen text > 10000 →
      (generate_ai_map env tr redis uc text).1 ≠ .httpExc 400 MSG_TOO_SHORT ∧
      (generate_ai_map env tr redis uc text).1 ≠ .httpExc 400 MSG_TOO_LONG) := by
  refine ⟨?_, ?_, ?_⟩
  · intro h
    simp [generate_ai_map, hprov, h]
  · intro h1 h2
    simp [generate_ai_map, hprov, h1, h2]
  · intro h1 h2
    simp only [generate_ai_map, if_neg hprov, if_neg h1, if_neg h2]
    constructor <;> intro hcontra <;>
      (repeat' split at hcontra) <;> try simp_all [MSG_TOO_SHORT, MSG_TOO_LONG]
    all_goals
      rename_i heq
      rcases make_request_httpExc_status _ _ _ _ _ _ heq with h | h <;> simp_all

/-- C9 witness: a two-character text is rejected as TooShort with no
provider call. -/
theorem c9_witness :
    generate_ai_map envC8 trackerEmpty (some []) true "hi" =
      (.httpExc 400 MSG_TOO_SHORT, some [], trackerEmpty, 0) :=
  (c9_amended_length_gate envC8 trackerEmpty (some []) true "hi" (by decide)).1
    (by decide)

end StoryMap
